import Mathlib

/-!
Shallow embedding of the cultural recommendation orchestration engine of
`qloo-client.ts`: the taste-graph gateway (parameter serialization, search and
insights normalization), the entity resolvers, the affinity scorer, the
cross-domain connector (tier selection, surprise connections, domain bridges)
and the two orchestrators (goal enhancement, component generation).

Numbers are modelled as rationals, optional JS values as `Option`, fallible
network calls as oracles returning `Except`.  Functions that issue upstream
calls additionally return the list of calls they made, in order, so that
claims about which requests are issued can be stated.
-/

set_option autoImplicit false

namespace Qloo

/-- JS `String.prototype.startsWith`, modelled on the character list. -/
def jsStartsWith (s p : String) : Bool :=
  p.data.isPrefixOf s.data

/-- JS truthiness projection for an optional string: `undefined` and `""` are
falsy. -/
def jsStrTruthy : Option String → Option String
  | some s => if s = "" then none else some s
  | none => none

/-- JS `a || b` on optional strings (`undefined` and the empty string are
falsy). -/
def jsOrStr (a b : Option String) : Option String :=
  match jsStrTruthy a with
  | some s => some s
  | none => b

/-- JS `a || b` on optional numbers (`undefined` and `0` are falsy). -/
def jsOrNum (a b : Option ℚ) : Option ℚ :=
  match a with
  | some q => if q = 0 then b else some q
  | none => b

/-! The `ENTITY_TYPES` constant of `qloo-client.ts`. -/

namespace ENTITY_TYPES

def ARTIST : String := "urn:entity:artist"

def BOOK : String := "urn:entity:book"

def BRAND : String := "urn:entity:brand"

def DESTINATION : String := "urn:entity:destination"

def MOVIE : String := "urn:entity:movie"

def PERSON : String := "urn:entity:person"

def PLACE : String := "urn:entity:place"

def PODCAST : String := "urn:entity:podcast"

def TV_SHOW : String := "urn:entity:tv_show"

def VIDEO_GAME : String := "urn:entity:video_game"

end ENTITY_TYPES

/-- The `QlooEntity` interface (the opaque `properties` blob is not modelled,
no claim inspects it). -/
structure QlooEntity where
  id : String
  name : String
  type : String
  affinity : Option ℚ := none
deriving DecidableEq

/-- A JS record lookup (`table[key]`) on an object literal, modelled as an
association-list lookup. -/
def lookupRecord {α : Type} (m : List (String × α)) (k : String) : Option α :=
  (m.find? (fun kv => kv.1 = k)).map (fun kv => kv.2)

/-! ## Gateway data shapes -/

/-- Upstream failure (HTTP error or transport error), carried as its message. -/
abbrev QErr := String

/-- Demographics, as they appear in profiles and insight signals (a profile
never sets `audiences`). -/
structure Demographics where
  age : Option String := none
  gender : Option String := none
  audiences : Option (List String) := none
deriving DecidableEq

/-- A location signal `{query?, coordinates?, radius?}`. -/
structure LocationSignal where
  query : Option String := none
  coordinates : Option String := none
  radius : Option Int := none
deriving DecidableEq

/-- A `{min?, max?}` numeric range. -/
structure RangeQ where
  min : Option ℚ := none
  max : Option ℚ := none
deriving DecidableEq

/-- The `preferences` part of a taste profile. -/
structure Preferences where
  priceLevel : Option RangeQ := none
  popularity : Option RangeQ := none
deriving DecidableEq

/-- The `UserTasteProfile` interface. -/
structure UserTasteProfile where
  interests : List String
  demographics : Option Demographics := none
  location : Option LocationSignal := none
  preferences : Option Preferences := none
deriving DecidableEq

/-- The `ProjectContext` interface. -/
structure ProjectContext where
  projectType : String
  goalCategory : String
  userLocation : Option String := none
  timeframe : Option String := none
  budget : Option String := none
deriving DecidableEq

/-- The `signals` part of a `getInsights` options object. -/
structure InsightSignals where
  entities : Option (List String) := none
  tags : Option (List String) := none
  demographics : Option Demographics := none
  location : Option LocationSignal := none
deriving DecidableEq

/-- The `filters` part of a `getInsights` options object. -/
structure InsightFilters where
  location : Option String := none
  tags : Option (List String) := none
  priceLevel : Option RangeQ := none
  popularity : Option RangeQ := none
  rating : Option RangeQ := none
deriving DecidableEq

/-- A `getInsights` options object, exactly as call sites construct it
(absent optional fields are `none`). -/
structure InsightOptions where
  filterType : String
  signals : Option InsightSignals := none
  filters : Option InsightFilters := none
  take : Option Nat := none
  page : Option Nat := none
  explainability : Option Bool := none
deriving DecidableEq

/-- A search request as `searchEntities` issues it: the query string plus the
parameters after the `|| 20` / `|| 1` defaults and the coordinate gate. -/
structure SearchRequest where
  query : String
  types : Option (List String) := none
  filterLocation : Option String := none
  filterRadius : Option Int := none
  take : Nat := 20
  page : Nat := 1
deriving DecidableEq

/-- The options record accepted by `searchEntities`. -/
structure SearchOptions where
  location : Option String := none
  radius : Option Int := none
  take : Option Nat := none
  page : Option Nat := none
deriving DecidableEq

/-- One upstream call, for request logs. -/
inductive QCall
  | search (req : SearchRequest)
  | insights (options : InsightOptions)
  | compare (groupA groupB : List String)
deriving DecidableEq

/-! ## Gateway: search endpoint -/

/-- Consume leading decimal digits; return the rest and how many were
consumed. -/
def dropDigits : List Char → List Char × Nat
  | [] => ([], 0)
  | c :: cs =>
    if c.isDigit then
      let r := dropDigits cs
      (r.1, r.2 + 1)
    else (c :: cs, 0)

/-- Consume one `-?\d+\.?\d*` number; `none` when the input does not start
with one. -/
def matchNumber (cs : List Char) : Option (List Char) :=
  let cs1 := match cs with
    | '-' :: rest => rest
    | other => other
  let d1 := dropDigits cs1
  if d1.2 = 0 then none
  else
    match d1.1 with
    | '.' :: rest => some (dropDigits rest).1
    | other => some other

/-- `QlooClient.isCoordinates`: does the string match
`^-?\d+\.?\d*,-?\d+\.?\d*$`? -/
def QlooClient.isCoordinates (location : String) : Bool :=
  match matchNumber location.data with
  | none => false
  | some rest =>
    match rest with
    | ',' :: rest2 =>
      match matchNumber rest2 with
      | some [] => true
      | _ => false
    | _ => false

/-- A raw item of the search endpoint's response. -/
structure RawSearchItem where
  entity_id : String
  name : String
  types : List String := []
  affinity : Option ℚ := none
deriving DecidableEq

/-- `searchEntities`' per-item normalization: `types[0] || 'unknown'` becomes
the entity type. -/
def normalizeSearchItem (item : RawSearchItem) : QlooEntity :=
  { id := item.entity_id
    name := item.name
    type := match item.types.head? with
      | some t => if t = "" then "unknown" else t
      | none => "unknown"
    affinity := item.affinity }

lemma normalizeSearchItem_type_ne_empty (item : RawSearchItem) :
    (normalizeSearchItem item).type ≠ "" := by
  unfold normalizeSearchItem
  rcases h : item.types.head? with _ | t
  · simp
  · by_cases ht : t = "" <;> simp [ht]

/-- The external search endpoint, as an oracle. -/
abbrev SearchOracle := SearchRequest → Except QErr (List RawSearchItem)

/-- The request `searchEntities` builds from its arguments: `types` only when
non-empty, `filter.location` only for a coordinate-shaped string, and the
`|| 20` / `|| 1` defaults on `take`/`page`. -/
def QlooClient.buildSearchRequest (query : String) (types : Option (List String))
    (options : SearchOptions) : SearchRequest :=
  { query := query
    types := match types with
      | some ts => if ts.length ≠ 0 then some ts else none
      | none => none
    filterLocation := match jsStrTruthy options.location with
      | some l => if QlooClient.isCoordinates l then some l else none
      | none => none
    filterRadius := match options.radius with
      | some r => if r ≠ 0 then some r else none
      | none => none
    take := match options.take with
      | some t => if t ≠ 0 then t else 20
      | none => 20
    page := match options.page with
      | some p => if p ≠ 0 then p else 1
      | none => 1 }

/-- `QlooClient.searchEntities`: issue one search request and normalize each
raw item; returns the issued request alongside the outcome. -/
def QlooClient.searchEntities (so : SearchOracle) (query : String)
    (types : Option (List String)) (options : SearchOptions) :
    SearchRequest × Except QErr (List QlooEntity) :=
  let req := QlooClient.buildSearchRequest query types options
  (req, (so req).map (fun items => items.map normalizeSearchItem))

/-! ## Gateway: insights endpoint (claim C6) -/

/-- A raw item nested under `results.entities` in an insights response
(`queryAffinity` models `item.query?.affinity`). -/
structure RawInsightItem where
  entity_id : Option String := none
  id : Option String := none
  name : String := ""
  subtype : Option String := none
  type : Option String := none
  queryAffinity : Option ℚ := none
  affinity : Option ℚ := none
deriving DecidableEq

/-- The shape of `response.results` in a raw insights response body. -/
inductive RawInsightResults
  /-- `response.results` is missing or falsy. -/
  | absent
  /-- `results` is present but `results.entities` is missing or not an array
  (this includes `results` itself being a plain array). -/
  | notEntityArray
  /-- `results.entities` is an array of items. -/
  | entities (items : List RawInsightItem)
deriving DecidableEq

/-- A raw (2xx) insights response body. -/
structure RawInsightResponse where
  results : RawInsightResults := .absent
deriving DecidableEq

/-- Does the body carry the nested `results.entities` array? -/
def hasEntitiesArray : RawInsightResults → Bool
  | .entities _ => true
  | _ => false

/-- `getInsights`' per-item normalization: `entity_id || id`,
`subtype || type || 'unknown'`, `query?.affinity || affinity` (a wholly
missing id surfaces as the JS `undefined`, modelled here as `""`). -/
def normalizeInsightItem (item : RawInsightItem) : QlooEntity :=
  { id := (jsOrStr item.entity_id item.id).getD ""
    name := item.name
    type := (jsOrStr item.subtype (jsOrStr item.type (some "unknown"))).getD "unknown"
    affinity := jsOrNum item.queryAffinity item.affinity }

/-- The normalized insights response. -/
structure QlooInsightResponse where
  results : List QlooEntity := []
deriving DecidableEq

/-- `getInsights`' response normalization: map the nested
`results.entities` array when it is present, otherwise coerce `results` to
the empty sequence. -/
def normalizeInsightResponse (response : RawInsightResponse) : QlooInsightResponse :=
  match response.results with
  | .entities items => { results := items.map normalizeInsightItem }
  | _ => { results := [] }

/-- The external insights endpoint, as an oracle at the options level. -/
abbrev InsightOracle := InsightOptions → Except QErr RawInsightResponse

/-- `QlooClient.getInsights`: one insights call plus response normalization. -/
def QlooClient.getInsights (io : InsightOracle) (options : InsightOptions) :
    Except QErr QlooInsightResponse :=
  (io options).map normalizeInsightResponse

/-! ## Gateway: `makeRequest` parameter serialization (claim C5) -/

/-- A JS value appearing in the `params` record handed to
`QlooClient.makeRequest`. -/
inductive PValue
  | undef
  | null
  | str (s : String)
  | num (q : ℚ)
  | boolV (b : Bool)
  | arr (xs : List String)
deriving DecidableEq

/-- One step of `makeRequest`'s `Object.entries(params).forEach` loop: skip
`undefined`/`null`, append a single comma-joined value for an array, and the
`toString` rendering for a scalar. -/
def appendParam (acc : List (String × String)) (kv : String × PValue) :
    List (String × String) :=
  match kv.2 with
  | .undef => acc
  | .null => acc
  | .arr xs => acc ++ [(kv.1, String.intercalate "," xs)]
  | .str s => acc ++ [(kv.1, s)]
  | .num q => acc ++ [(kv.1, toString q)]
  | .boolV b => acc ++ [(kv.1, if b then "true" else "false")]

/-- `QlooClient.makeRequest`'s query-parameter serialization: the list of
`(key, value)` pairs appended to `url.searchParams`, in entry order. -/
def makeRequestParams (ps : List (String × PValue)) : List (String × String) :=
  ps.foldl appendParam []

/-- Serialization as the spec's words describe it (claim C5): array values
become one comma-joined value, scalars pass through `toString`, and
`undefined`/`null` entries are dropped entirely. -/
def serializeParamsSpec (ps : List (String × PValue)) : List (String × String) :=
  ps.filterMap (fun kv =>
    match kv.2 with
    | .undef => none
    | .null => none
    | .arr xs => some (kv.1, String.intercalate "," xs)
    | .str s => some (kv.1, s)
    | .num q => some (kv.1, toString q)
    | .boolV b => some (kv.1, if b then "true" else "false"))

lemma makeRequestParams_go (ps : List (String × PValue)) :
    ∀ acc : List (String × String),
      ps.foldl appendParam acc = acc ++ serializeParamsSpec ps := by
  induction ps with
  | nil => intro acc; simp [serializeParamsSpec]
  | cons kv rest ih =>
    intro acc
    obtain ⟨k, v⟩ := kv
    cases v <;>
      simp [List.foldl_cons, appendParam, serializeParamsSpec, ih,
        List.filterMap_cons, List.append_assoc]

/-- `Except.isOk`, spelled out. -/
def exceptIsOk {ε α : Type} : Except ε α → Bool
  | .ok _ => true
  | .error _ => false

lemma exceptIsOk_map {ε α β : Type} (g : α → β) (x : Except ε α) :
    exceptIsOk (x.map g) = exceptIsOk x := by
  cases x <;> rfl

/-! ## Entity resolvers (claim C4) -/

/-- The request `CulturalGoalArchitect.resolveUserInterests` issues per
interest: `searchEntities(interest, undefined, { take: 5 })`. -/
def CulturalGoalArchitect.interestSearchRequest (interest : String) : SearchRequest :=
  QlooClient.buildSearchRequest interest none { take := some 5 }

/-- `CulturalGoalArchitect.resolveUserInterests`: one bounded search per
interest, in list order, appending results in encounter order; a failing
search aborts the remaining interests.  The first component logs the issued
calls. -/
def CulturalGoalArchitect.resolveUserInterests (so : SearchOracle) :
    List String → List QCall × Except QErr (List QlooEntity)
  | [] => ([], .ok [])
  | interest :: rest =>
    let r := QlooClient.searchEntities so interest none { take := some 5 }
    match r.2 with
    | .error e => ([.search r.1], .error e)
    | .ok searchResults =>
      let rr := CulturalGoalArchitect.resolveUserInterests so rest
      (.search r.1 :: rr.1, rr.2.map (fun tail => searchResults ++ tail))

/-- The request `CrossDomainDiscoveryEngine.resolveInterests` issues per
interest: `searchEntities(interest, undefined, { take: 3 })`. -/
def CrossDomainDiscoveryEngine.interestSearchRequest (interest : String) : SearchRequest :=
  QlooClient.buildSearchRequest interest none { take := some 3 }

/-- `CrossDomainDiscoveryEngine.resolveInterests`: like the architect's
resolver but with a per-interest cap of 3 results. -/
def CrossDomainDiscoveryEngine.resolveInterests (so : SearchOracle) :
    List String → List QCall × Except QErr (List QlooEntity)
  | [] => ([], .ok [])
  | interest :: rest =>
    let r := QlooClient.searchEntities so interest none { take := some 3 }
    match r.2 with
    | .error e => ([.search r.1], .error e)
    | .ok searchResults =>
      let rr := CrossDomainDiscoveryEngine.resolveInterests so rest
      (.search r.1 :: rr.1, rr.2.map (fun tail => searchResults ++ tail))

/-! ## Cross-domain connector: target-domain retrieval (claim C1) -/

/-- The connector's domain → entity-type table (`business` deliberately maps
to `PLACE`, not `BRAND`). -/
def CrossDomainDiscoveryEngine.domainTypeMapping : List (String × String) :=
  [("fitness", ENTITY_TYPES.PLACE),
   ("food", ENTITY_TYPES.PLACE),
   ("travel", ENTITY_TYPES.DESTINATION),
   ("entertainment", ENTITY_TYPES.MOVIE),
   ("music", ENTITY_TYPES.ARTIST),
   ("business", ENTITY_TYPES.PLACE),
   ("creative", ENTITY_TYPES.PLACE),
   ("learning", ENTITY_TYPES.BOOK)]

/-- `domainTypeMapping[domain] || ENTITY_TYPES.PLACE`. -/
def CrossDomainDiscoveryEngine.targetTypeFor (domain : String) : String :=
  (lookupRecord CrossDomainDiscoveryEngine.domainTypeMapping domain).getD ENTITY_TYPES.PLACE

/-- `CrossDomainDiscoveryEngine.getTargetDomainEntities`: classify the
resolved user entities into real vs tag entities (`e.type &&
e.type.startsWith('urn:tag')`), then issue exactly one insight query out of
three tiers: location fallback when no real entity exists, tag signals capped
at 5 when tag entities exist, else a plain query.  The first component logs
the issued call. -/
def CrossDomainDiscoveryEngine.getTargetDomainEntities (io : InsightOracle)
    (domain : String) (userEntities : List QlooEntity) :
    List QCall × Except QErr (List QlooEntity) :=
  let targetType := CrossDomainDiscoveryEngine.targetTypeFor domain
  let realEntities := userEntities.filter
    (fun e => e.type != "" && !(jsStartsWith e.type "urn:tag"))
  if realEntities.length = 0 then
    let options : InsightOptions :=
      { filterType := targetType
        signals := some { location := some { query := some "Brooklyn, NY" } }
        take := some 20 }
    ([.insights options], (QlooClient.getInsights io options).map (fun r => r.results))
  else
    let tagEntities := userEntities.filter
      (fun e => e.type != "" && jsStartsWith e.type "urn:tag")
    let tagIds := tagEntities.map (fun e => e.id)
    if 0 < tagIds.length then
      let options : InsightOptions :=
        { filterType := targetType
          signals := some { tags := some (tagIds.take 5) }
          take := some 20
          explainability := some true }
      ([.insights options], (QlooClient.getInsights io options).map (fun r => r.results))
    else
      let options : InsightOptions := { filterType := targetType, take := some 20 }
      ([.insights options], (QlooClient.getInsights io options).map (fun r => r.results))

/-! ## Cross-domain connector: surprise connections (claim C2) -/

/-- The `SurpriseConnection` record. -/
structure SurpriseConnection where
  fromInterest : String
  toRecommendation : QlooEntity
  connectionStrength : ℚ
  explanation : String
deriving DecidableEq

/-- The guard-and-push step of the surprise loop: a record is pushed exactly
when `targetEntity.affinity && targetEntity.affinity > 0.7` (the first
conjunct is the JS truthiness test on the affinity). -/
def surpriseOf (userEntity targetEntity : QlooEntity) : Option SurpriseConnection :=
  match targetEntity.affinity with
  | some a =>
    if a ≠ 0 ∧ 0.7 < a then
      some { fromInterest := userEntity.name
             toRecommendation := targetEntity
             connectionStrength := a
             explanation := "People who like " ++ userEntity.name ++
               " often also enjoy " ++ targetEntity.name }
    else none
  | none => none

/-- Descending order on connection strength, the order the JS comparator
`(a, b) => b.connectionStrength - a.connectionStrength` sorts into. -/
def strengthGE (a b : SurpriseConnection) : Prop :=
  b.connectionStrength ≤ a.connectionStrength

instance : DecidableRel strengthGE :=
  fun a b => inferInstanceAs (Decidable (b.connectionStrength ≤ a.connectionStrength))

instance : IsTotal SurpriseConnection strengthGE :=
  ⟨fun a b => le_total b.connectionStrength a.connectionStrength⟩

instance : IsTrans SurpriseConnection strengthGE :=
  ⟨fun _ _ _ h1 h2 => le_trans h2 h1⟩

/-- One iteration of the inner surprise loop: push the record when the guard
holds. -/
def surpriseStep (userEntity : QlooEntity) (acc2 : List SurpriseConnection)
    (targetEntity : QlooEntity) : List SurpriseConnection :=
  match surpriseOf userEntity targetEntity with
  | some c => acc2 ++ [c]
  | none => acc2

/-- `CrossDomainDiscoveryEngine.findSurpriseConnections`: scan the first 3
user entities against the first 5 target entities, keep high-affinity pairs,
and sort descending by strength.  Modern JS `Array.prototype.sort` is stable,
and for this total transitive comparator every stable sort computes the same
list, embedded here as insertion sort. -/
def CrossDomainDiscoveryEngine.findSurpriseConnections
    (userEntities targetEntities : List QlooEntity) (context : ProjectContext) :
    List SurpriseConnection :=
  let connections := (userEntities.take 3).foldl (fun acc userEntity =>
    (targetEntities.take 5).foldl (surpriseStep userEntity) acc) []
  List.insertionSort strengthGE connections

/-! ## Cross-domain connector: domain bridges (claim C7) -/

/-- The `DomainBridge` record. -/
structure DomainBridge where
  domain1 : String
  domain2 : String
  bridgeEntities : List QlooEntity := []
  insights : List String := []
deriving DecidableEq

/-- `CrossDomainDiscoveryEngine.findDomainBridges`: the upstream comparison
capability is deliberately not called (observed 403s); the method
unconditionally pushes one synthetic bridge.  The first component logs the
issued calls — there are none. -/
def CrossDomainDiscoveryEngine.findDomainBridges (userInterests : List String)
    (targetDomain : String) : List QCall × List DomainBridge :=
  ([],
   [{ domain1 := "user_interests"
      domain2 := targetDomain
      bridgeEntities := []
      insights :=
        ["Bridge found between " ++ String.intercalate ", " userInterests ++
           " and " ++ targetDomain ++ " domain",
         "Cultural connections exist across these domains",
         "Consider exploring crossover opportunities"] }])

/-! ## Goal architect: cross-domain connections (claim C10) -/

/-- A goal-enhancement cross-domain connection record (`from` is a Lean
keyword and `to` a keyword token, hence `from_`/`to_`). -/
structure CrossConnection where
  from_ : String
  to_ : String
  connection : List QlooEntity := []
  strength : ℚ
deriving DecidableEq

/-- `CulturalGoalArchitect.findCrossDomainConnections`: the comparison API is
skipped (403s); when both entity lists are non-empty one synthetic connection
is pushed, built from the first 5 goal entities with fixed strength 0.8.  The
first component logs the issued calls — there are none. -/
def CulturalGoalArchitect.findCrossDomainConnections
    (userEntities goalEntities : List QlooEntity) (context : ProjectContext) :
    List QCall × List CrossConnection :=
  ([],
   if 0 < userEntities.length ∧ 0 < goalEntities.length then
     [{ from_ := "user_interests"
        to_ := "goal_domain"
        connection := goalEntities.take 5
        strength := 0.8 }]
   else [])

/-! ## Affinity scorer (claim C8) -/

/-- `CulturalGoalArchitect.calculateAverageAffinity`: `0` for an empty batch,
otherwise the sum of `affinity || 0` divided by the count. -/
def CulturalGoalArchitect.calculateAverageAffinity (entities : List QlooEntity) : ℚ :=
  if entities.length = 0 then 0
  else (entities.foldl (fun sum e => sum + e.affinity.getD 0) 0) / (entities.length : ℚ)

lemma foldl_add_affinity (l : List QlooEntity) :
    ∀ a : ℚ, l.foldl (fun sum e => sum + e.affinity.getD 0) a
      = a + (l.map (fun e => e.affinity.getD 0)).sum := by
  induction l with
  | nil => intro a; simp
  | cons e rest ih =>
    intro a
    simp [List.foldl_cons, ih, add_assoc]

/-! ## Goal architect orchestration (claim C3) -/

/-- The goal-category → entity-type-list table of `getGoalRelevantEntities`. -/
def CulturalGoalArchitect.goalEntityMapping : List (String × List String) :=
  [("fitness", [ENTITY_TYPES.PLACE, ENTITY_TYPES.BRAND, ENTITY_TYPES.BOOK]),
   ("business", [ENTITY_TYPES.BRAND, ENTITY_TYPES.BOOK, ENTITY_TYPES.PERSON]),
   ("travel", [ENTITY_TYPES.DESTINATION, ENTITY_TYPES.PLACE, ENTITY_TYPES.BOOK]),
   ("learning", [ENTITY_TYPES.BOOK, ENTITY_TYPES.PODCAST, ENTITY_TYPES.PERSON]),
   ("creative", [ENTITY_TYPES.ARTIST, ENTITY_TYPES.BOOK, ENTITY_TYPES.MOVIE]),
   ("social", [ENTITY_TYPES.PLACE, ENTITY_TYPES.BRAND, ENTITY_TYPES.DESTINATION])]

/-- The per-entity-type loop of `getGoalRelevantEntities`: one bounded search
per relevant type, concatenating; fail-fast. -/
def CulturalGoalArchitect.getGoalRelevantEntitiesAux (so : SearchOracle) (goal : String) :
    List String → List QCall × Except QErr (List QlooEntity)
  | [] => ([], .ok [])
  | entityType :: rest =>
    let r := QlooClient.searchEntities so goal (some [entityType]) { take := some 10 }
    match r.2 with
    | .error e => ([.search r.1], .error e)
    | .ok results =>
      let rr := CulturalGoalArchitect.getGoalRelevantEntitiesAux so goal rest
      (.search r.1 :: rr.1, rr.2.map (fun tail => results ++ tail))

/-- `CulturalGoalArchitect.getGoalRelevantEntities`:
`goalEntityMapping[goalCategory] || [PLACE]`, then one search per type. -/
def CulturalGoalArchitect.getGoalRelevantEntities (so : SearchOracle) (goal : String)
    (context : ProjectContext) : List QCall × Except QErr (List QlooEntity) :=
  CulturalGoalArchitect.getGoalRelevantEntitiesAux so goal
    ((lookupRecord CulturalGoalArchitect.goalEntityMapping context.goalCategory).getD
      [ENTITY_TYPES.PLACE])

/-- A personalized-project record. -/
structure PersonalizedProject where
  projectName : String
  culturalAlignment : List QlooEntity := []
  affinityScore : ℚ
deriving DecidableEq

/-- `s.charAt(0).toUpperCase() + s.slice(1)`. -/
def capFirst (s : String) : String :=
  match s.data with
  | [] => ""
  | c :: cs => String.mk (c.toUpper :: cs)

/-- The fixed project-type list of `generateCulturallyAwareProjects`. -/
def CulturalGoalArchitect.projectTypes : List String :=
  ["discovery", "execution", "community", "learning"]

/-- The insight options `generateCulturallyAwareProjects` issues per project
type (the options do not depend on the project type). -/
def CulturalGoalArchitect.projectInsightOptions (userEntities : List QlooEntity)
    (context : ProjectContext) : InsightOptions :=
  { filterType := ENTITY_TYPES.PLACE
    signals := some
      { entities := some ((userEntities.take 3).map (fun e => e.id))
        location := (jsStrTruthy context.userLocation).map (fun l => { query := some l }) }
    take := some 10 }

/-- `CulturalGoalArchitect.generateCulturallyAwareProjects`: one insight call
per project type; a failing call is caught per iteration (`logger.warn`) and
only skips that project.  The first component logs the issued calls. -/
def CulturalGoalArchitect.generateCulturallyAwareProjects (io : InsightOracle)
    (goal : String) (userEntities goalEntities : List QlooEntity)
    (context : ProjectContext) : List QCall × List PersonalizedProject :=
  CulturalGoalArchitect.projectTypes.foldl (fun acc projectType =>
    let options := CulturalGoalArchitect.projectInsightOptions userEntities context
    match QlooClient.getInsights io options with
    | .error _ => (acc.1 ++ [.insights options], acc.2)
    | .ok insights =>
      (acc.1 ++ [.insights options],
       acc.2 ++ [{ projectName := capFirst projectType ++ " Project"
                   culturalAlignment := insights.results
                   affinityScore :=
                     CulturalGoalArchitect.calculateAverageAffinity insights.results }]))
    ([], [])

/-- The result record of `enhanceGoalWithCulturalInsights`. -/
structure EnhanceResult where
  culturalRecommendations : List QlooEntity
  personalizedProjects : List PersonalizedProject
  crossDomainConnections : List CrossConnection
deriving DecidableEq

/-- `CulturalGoalArchitect.enhanceGoalWithCulturalInsights`: resolve
interests, fetch goal-relevant entities, derive connections and projects; the
surrounding try/catch rethrows, so resolver failures propagate unchanged. -/
def CulturalGoalArchitect.enhanceGoalWithCulturalInsights (so : SearchOracle)
    (io : InsightOracle) (goal : String) (userProfile : UserTasteProfile)
    (context : ProjectContext) : List QCall × Except QErr EnhanceResult :=
  let r1 := CulturalGoalArchitect.resolveUserInterests so userProfile.interests
  match r1.2 with
  | .error e => (r1.1, .error e)
  | .ok userEntities =>
    let r2 := CulturalGoalArchitect.getGoalRelevantEntities so goal context
    match r2.2 with
    | .error e => (r1.1 ++ r2.1, .error e)
    | .ok goalEntities =>
      let r3 := CulturalGoalArchitect.findCrossDomainConnections userEntities goalEntities
        context
      let r4 := CulturalGoalArchitect.generateCulturallyAwareProjects io goal userEntities
        goalEntities context
      (r1.1 ++ r2.1 ++ r3.1 ++ r4.1,
       .ok { culturalRecommendations := goalEntities
             personalizedProjects := r4.2
             crossDomainConnections := r3.2 })

/-! ## Component generator (claim C9) -/

/-- The venue-category insight options. -/
def SmartProjectComponentGenerator.venueInsightOptions (userProfile : UserTasteProfile)
    (context : ProjectContext) : InsightOptions :=
  { filterType := ENTITY_TYPES.PLACE
    signals := some
      { entities := some (userProfile.interests.take 5)
        demographics := userProfile.demographics
        location := userProfile.location }
    filters := some
      { location := context.userLocation
        priceLevel := userProfile.preferences.bind (fun p => p.priceLevel)
        popularity := userProfile.preferences.bind (fun p => p.popularity) }
    take := some 15 }

/-- `getVenueRecommendations`: one insight call, caught to `[]` on failure. -/
def SmartProjectComponentGenerator.getVenueRecommendations (io : InsightOracle)
    (projectType : String) (userProfile : UserTasteProfile) (context : ProjectContext) :
    List QlooEntity :=
  match QlooClient.getInsights io
      (SmartProjectComponentGenerator.venueInsightOptions userProfile context) with
  | .ok insights => insights.results
  | .error _ => []

/-- The fixed content-type list of `getContentRecommendations`. -/
def SmartProjectComponentGenerator.contentTypes : List String :=
  [ENTITY_TYPES.BOOK, ENTITY_TYPES.PODCAST, ENTITY_TYPES.MOVIE]

/-- The per-content-type insight options. -/
def SmartProjectComponentGenerator.contentInsightOptions (contentType : String)
    (userProfile : UserTasteProfile) : InsightOptions :=
  { filterType := contentType
    signals := some
      { entities := some (userProfile.interests.take 5)
        demographics := userProfile.demographics }
    take := some 5 }

/-- `getContentRecommendations`: one insight call per content type, each
caught individually (`logger.warn`), concatenating the successes. -/
def SmartProjectComponentGenerator.getContentRecommendations (io : InsightOracle)
    (projectType : String) (userProfile : UserTasteProfile) : List QlooEntity :=
  SmartProjectComponentGenerator.contentTypes.foldl (fun allContent contentType =>
    match QlooClient.getInsights io
        (SmartProjectComponentGenerator.contentInsightOptions contentType userProfile) with
    | .error _ => allContent
    | .ok insights => allContent ++ insights.results) []

/-- The tool-category insight options. -/
def SmartProjectComponentGenerator.toolInsightOptions (userProfile : UserTasteProfile) :
    InsightOptions :=
  { filterType := ENTITY_TYPES.BRAND
    signals := some
      { entities := some (userProfile.interests.take 5)
        demographics := userProfile.demographics }
    take := some 10 }

/-- `getToolRecommendations`: one insight call, caught to `[]` on failure. -/
def SmartProjectComponentGenerator.getToolRecommendations (io : InsightOracle)
    (projectType : String) (userProfile : UserTasteProfile) : List QlooEntity :=
  match QlooClient.getInsights io
      (SmartProjectComponentGenerator.toolInsightOptions userProfile) with
  | .ok insights => insights.results
  | .error _ => []

/-- The community-category insight options. -/
def SmartProjectComponentGenerator.communityInsightOptions (userProfile : UserTasteProfile) :
    InsightOptions :=
  { filterType := ENTITY_TYPES.DESTINATION
    signals := some
      { entities := some (userProfile.interests.take 5)
        location := userProfile.location }
    take := some 10 }

/-- `getCommunityRecommendations`: one insight call, caught to `[]` on
failure. -/
def SmartProjectComponentGenerator.getCommunityRecommendations (io : InsightOracle)
    (projectType : String) (userProfile : UserTasteProfile) (context : ProjectContext) :
    List QlooEntity :=
  match QlooClient.getInsights io
      (SmartProjectComponentGenerator.communityInsightOptions userProfile) with
  | .ok insights => insights.results
  | .error _ => []

/-- The four-category result record of component generation. -/
structure ComponentRecommendations where
  venues : List QlooEntity
  content : List QlooEntity
  tools : List QlooEntity
  communities : List QlooEntity
deriving DecidableEq

/-- `SmartProjectComponentGenerator.generateComponentRecommendations`: the
four category fetches run independently (`Promise.all`) and are joined
positionally into the result record. -/
def SmartProjectComponentGenerator.generateComponentRecommendations (io : InsightOracle)
    (projectType : String) (userProfile : UserTasteProfile) (context : ProjectContext) :
    ComponentRecommendations :=
  { venues := SmartProjectComponentGenerator.getVenueRecommendations io projectType
      userProfile context
    content := SmartProjectComponentGenerator.getContentRecommendations io projectType
      userProfile
    tools := SmartProjectComponentGenerator.getToolRecommendations io projectType
      userProfile
    communities := SmartProjectComponentGenerator.getCommunityRecommendations io
      projectType userProfile context }

/-! ## Helper lemmas -/

lemma foldl_surpriseStep (u : QlooEntity) (l : List QlooEntity) :
    ∀ acc : List SurpriseConnection,
      l.foldl (surpriseStep u) acc = acc ++ l.filterMap (surpriseOf u) := by
  induction l with
  | nil => intro acc; simp
  | cons t rest ih =>
    intro acc
    rw [List.foldl_cons]
    cases hg : surpriseOf u t with
    | none => simp [surpriseStep, hg, ih, List.filterMap_cons]
    | some c => simp [surpriseStep, hg, ih, List.filterMap_cons, List.append_assoc]

lemma foldl_surprise (targets users : List QlooEntity) :
    ∀ acc : List SurpriseConnection,
      users.foldl (fun acc userEntity =>
        targets.foldl (surpriseStep userEntity) acc) acc
        = acc ++ users.flatMap (fun u => targets.filterMap (surpriseOf u)) := by
  induction users with
  | nil => intro acc; simp
  | cons u rest ih =>
    intro acc
    rw [List.foldl_cons, foldl_surpriseStep u targets acc, ih]
    simp [List.append_assoc]

lemma surpriseOf_eq_spec (u t : QlooEntity) :
    surpriseOf u t =
      t.affinity.bind (fun a =>
        if 0.7 < a then
          some { fromInterest := u.name
                 toRecommendation := t
                 connectionStrength := a
                 explanation := "People who like " ++ u.name ++
                   " often also enjoy " ++ t.name }
        else none) := by
  unfold surpriseOf
  cases t.affinity with
  | none => rfl
  | some a =>
    by_cases hlt : (0.7 : ℚ) < a
    · have hne : a ≠ 0 := ne_of_gt (lt_trans (by norm_num) hlt)
      simp [hlt, hne]
    · simp [hlt]

/-! ## Concrete oracles used by witnesses and counterexamples -/

/-- An insights oracle answering every query with an empty entity array. -/
def insightOracleEmpty : InsightOracle := fun _ => .ok { results := .entities [] }

/-- A search oracle answering every query with no results. -/
def searchOracleEmpty : SearchOracle := fun _ => .ok []

/-- A search oracle failing every query. -/
def searchOracleFail : SearchOracle := fun _ => .error "boom"

/-- The entity list used by the tier-selection witness: one tag entity and
one real entity. -/
def tierWitnessEntities : List QlooEntity :=
  [{ id := "t1", name := "jazz", type := "urn:tag:genre:music:jazz" },
   { id := "e1", name := "Blue Note", type := "urn:entity:place" }]

/-- A raw search item for a place entity. -/
def rawPlaceItem : RawSearchItem :=
  { entity_id := "e0", name := "N", types := ["urn:entity:place"], affinity := some 0.9 }

/-- `rawPlaceItem` after search normalization. -/
def placeEntity : QlooEntity :=
  { id := "e0", name := "N", type := "urn:entity:place", affinity := some 0.9 }

/-- A search oracle answering every query with the single place item. -/
def searchOracleOne : SearchOracle := fun _ => .ok [rawPlaceItem]

/-- An insights oracle failing every query. -/
def insightOracleFail : InsightOracle := fun _ => .error "500"

/-- A raw insights item for a podcast entity. -/
def rawPodcastInsightItem : RawInsightItem :=
  { entity_id := some "p1", name := "Pod", subtype := some "urn:entity:podcast",
    affinity := some 0.8 }

/-- `rawPodcastInsightItem` after insights normalization. -/
def podcastEntity : QlooEntity :=
  { id := "p1", name := "Pod", type := "urn:entity:podcast", affinity := some 0.8 }

/-- An insights oracle failing exactly the book-typed queries and answering
every other query with the single podcast item. -/
def insightOracleNoBooks : InsightOracle := fun options =>
  if options.filterType = ENTITY_TYPES.BOOK then .error "403"
  else .ok { results := .entities [rawPodcastInsightItem] }

end Qloo

namespace Qloo

/-- Claim C5: for every parameter map handed to the Gateway's request builder,
each array value is serialized as one single comma-joined parameter value
(never repeated keys), each scalar passes through `toString`, and every key
whose value is `undefined` or `null` is omitted entirely. -/
theorem makeRequest_param_serialization (ps : List (String × PValue)) :
    makeRequestParams ps = serializeParamsSpec ps ∧
    (∀ (k : String) (xs : List String),
      makeRequestParams ((k, PValue.arr xs) :: ps)
        = (k, String.intercalate "," xs) :: makeRequestParams ps) ∧
    (∀ k : String,
      makeRequestParams ((k, PValue.undef) :: ps) = makeRequestParams ps) ∧
    (∀ k : String,
      makeRequestParams ((k, PValue.null) :: ps) = makeRequestParams ps) := by
  refine ⟨by simpa using makeRequestParams_go ps [], ?_, ?_, ?_⟩
  · intro k xs
    simp [makeRequestParams, List.foldl_cons, appendParam, makeRequestParams_go]
  · intro k
    simp [makeRequestParams, List.foldl_cons, appendParam]
  · intro k
    simp [makeRequestParams, List.foldl_cons, appendParam]

/-- Claim C1: target-domain retrieval issues exactly one insight query,
chosen deterministically among three tiers by classifying the resolved user
entities: no real entity (type not starting with `urn:tag`) → location-only
query at the fixed default location; otherwise, at least one tag entity →
tag-signal query over the first at-most-5 tag ids with explainability
enabled; otherwise → plain query for the mapped target type with no signals.
The hypothesis that entity types are non-empty holds for every resolved
entity (`normalizeSearchItem_type_ne_empty`). -/
theorem getTargetDomainEntities_tier_selection (io : InsightOracle) (domain : String)
    (userEntities : List QlooEntity)
    (h : ∀ e ∈ userEntities, e.type ≠ "") :
    (CrossDomainDiscoveryEngine.getTargetDomainEntities io domain userEntities).1 =
      [QCall.insights (
        if (userEntities.filter (fun e => !(jsStartsWith e.type "urn:tag"))).length = 0 then
          { filterType := CrossDomainDiscoveryEngine.targetTypeFor domain
            signals := some { location := some { query := some "Brooklyn, NY" } }
            take := some 20 }
        else if 0 < (userEntities.filter (fun e => jsStartsWith e.type "urn:tag")).length then
          { filterType := CrossDomainDiscoveryEngine.targetTypeFor domain
            signals := some { tags := some (List.take 5
              ((userEntities.filter (fun e => jsStartsWith e.type "urn:tag")).map
                (fun e => e.id))) }
            take := some 20
            explainability := some true }
        else
          { filterType := CrossDomainDiscoveryEngine.targetTypeFor domain
            take := some 20 })] := by
  have hreal : userEntities.filter (fun e => e.type != "" && !(jsStartsWith e.type "urn:tag"))
      = userEntities.filter (fun e => !(jsStartsWith e.type "urn:tag")) := by
    apply List.filter_congr
    intro e he
    have hb : (e.type != "") = true := bne_iff_ne.mpr (h e he)
    simp [hb]
  have htag : userEntities.filter (fun e => e.type != "" && jsStartsWith e.type "urn:tag")
      = userEntities.filter (fun e => jsStartsWith e.type "urn:tag") := by
    apply List.filter_congr
    intro e he
    have hb : (e.type != "") = true := bne_iff_ne.mpr (h e he)
    simp [hb]
  unfold CrossDomainDiscoveryEngine.getTargetDomainEntities
  simp only [hreal, htag, List.length_map]
  split_ifs <;> rfl

/-- Witness for claim C1 at a concrete entity list holding one tag entity and
one real entity: the tag-signal tier fires, with the tag id as signal and
explainability enabled. -/
theorem getTargetDomainEntities_tier_selection_witness :
    (CrossDomainDiscoveryEngine.getTargetDomainEntities insightOracleEmpty "music"
        tierWitnessEntities).1 =
      [QCall.insights
        { filterType := "urn:entity:artist"
          signals := some { tags := some ["t1"] }
          take := some 20
          explainability := some true }] := by
  have h := getTargetDomainEntities_tier_selection insightOracleEmpty "music"
    tierWitnessEntities (by decide)
  rw [h]
  decide

/-- Claim C2: surprise-connection scoring considers exactly the pairs from
the first 3 user entities and the first 5 target entities, keeps only pairs
whose target affinity exceeds 0.7, emits the templated record per kept pair,
and returns the emitted records sorted descending by `connectionStrength`;
below-threshold pairs are absent. -/
theorem findSurpriseConnections_spec (userEntities targetEntities : List QlooEntity)
    (context : ProjectContext) :
    (CrossDomainDiscoveryEngine.findSurpriseConnections userEntities targetEntities
        context).Perm
      ((userEntities.take 3).flatMap (fun u =>
        (targetEntities.take 5).filterMap (fun t =>
          t.affinity.bind (fun a =>
            if 0.7 < a then
              some { fromInterest := u.name
                     toRecommendation := t
                     connectionStrength := a
                     explanation := "People who like " ++ u.name ++
                       " often also enjoy " ++ t.name }
            else none)))) ∧
    List.Sorted strengthGE
      (CrossDomainDiscoveryEngine.findSurpriseConnections userEntities targetEntities
        context) ∧
    (∀ c ∈ CrossDomainDiscoveryEngine.findSurpriseConnections userEntities targetEntities
        context, 0.7 < c.connectionStrength) := by
  have hbody : CrossDomainDiscoveryEngine.findSurpriseConnections userEntities
      targetEntities context = List.insertionSort strengthGE
        ((userEntities.take 3).flatMap (fun u =>
          (targetEntities.take 5).filterMap (surpriseOf u))) := by
    unfold CrossDomainDiscoveryEngine.findSurpriseConnections
    rw [foldl_surprise (targetEntities.take 5) (userEntities.take 3) []]
    rfl
  have hfm : (fun u => (targetEntities.take 5).filterMap (surpriseOf u))
      = (fun u => (targetEntities.take 5).filterMap (fun t =>
          t.affinity.bind (fun a =>
            if 0.7 < a then
              some { fromInterest := u.name
                     toRecommendation := t
                     connectionStrength := a
                     explanation := "People who like " ++ u.name ++
                       " often also enjoy " ++ t.name }
            else none))) := by
    funext u
    have hsp : surpriseOf u = (fun t =>
        t.affinity.bind (fun a =>
          if 0.7 < a then
            some { fromInterest := u.name
                   toRecommendation := t
                   connectionStrength := a
                   explanation := "People who like " ++ u.name ++
                     " often also enjoy " ++ t.name }
          else none)) := funext (fun t => surpriseOf_eq_spec u t)
    rw [hsp]
  refine ⟨?_, ?_, ?_⟩
  · rw [hbody, hfm]
    exact List.perm_insertionSort strengthGE _
  · rw [hbody]
    exact List.sorted_insertionSort strengthGE _
  · intro c hc
    rw [hbody] at hc
    have hmem : c ∈ (userEntities.take 3).flatMap (fun u =>
        (targetEntities.take 5).filterMap (surpriseOf u)) :=
      (List.perm_insertionSort strengthGE _).mem_iff.mp hc
    rcases List.mem_flatMap.mp hmem with ⟨u, _, hcc⟩
    rcases List.mem_filterMap.mp hcc with ⟨t, _, heq⟩
    rw [surpriseOf_eq_spec u t] at heq
    rcases ha : t.affinity with _ | a
    · rw [ha] at heq
      simp at heq
    · rw [ha] at heq
      by_cases h7 : (0.7 : ℚ) < a
      · rw [Option.some_bind, if_pos h7] at heq
        cases heq
        exact h7
      · simp [h7] at heq

/-- Claim C4, corrected cap: the Connector's resolver issues its one search
per interest with a cap of 3 results, not 5. -/
theorem resolveInterests_take_cex :
    (CrossDomainDiscoveryEngine.resolveInterests searchOracleEmpty ["jazz"]).1 =
      [QCall.search { query := "jazz", take := 3 }] ∧
    (CrossDomainDiscoveryEngine.interestSearchRequest "jazz").take = 3 ∧
    (3 : Nat) ≠ 5 := by
  refine ⟨rfl, rfl, by decide⟩

/-- Claim C4 as amended: each resolver issues exactly N search calls, one per
interest in list order — capped at 5 results for the goal architect's
resolver and at 3 for the connector's — the successful output is the
concatenation of normalized per-interest results in interest-then-rank order,
and a failure of any one interest's search aborts the whole resolution. -/
theorem resolve_interests_calls_spec :
    (∀ (f : SearchRequest → List RawSearchItem) (interests : List String),
      (CulturalGoalArchitect.resolveUserInterests (fun r => .ok (f r)) interests).1 =
        interests.map (fun i => QCall.search (CulturalGoalArchitect.interestSearchRequest i)) ∧
      (CulturalGoalArchitect.resolveUserInterests (fun r => .ok (f r)) interests).2 =
        .ok (interests.flatMap (fun i =>
          (f (CulturalGoalArchitect.interestSearchRequest i)).map normalizeSearchItem)) ∧
      (CrossDomainDiscoveryEngine.resolveInterests (fun r => .ok (f r)) interests).1 =
        interests.map (fun i => QCall.search (CrossDomainDiscoveryEngine.interestSearchRequest i)) ∧
      (CrossDomainDiscoveryEngine.resolveInterests (fun r => .ok (f r)) interests).2 =
        .ok (interests.flatMap (fun i =>
          (f (CrossDomainDiscoveryEngine.interestSearchRequest i)).map normalizeSearchItem))) ∧
    (∀ i : String,
      (CulturalGoalArchitect.interestSearchRequest i).take = 5 ∧
      (CrossDomainDiscoveryEngine.interestSearchRequest i).take = 3) ∧
    (∀ (so : SearchOracle) (interests : List String),
      (∃ i ∈ interests,
        exceptIsOk (so (CulturalGoalArchitect.interestSearchRequest i)) = false) →
      exceptIsOk (CulturalGoalArchitect.resolveUserInterests so interests).2 = false) ∧
    (∀ (so : SearchOracle) (interests : List String),
      (∃ i ∈ interests,
        exceptIsOk (so (CrossDomainDiscoveryEngine.interestSearchRequest i)) = false) →
      exceptIsOk (CrossDomainDiscoveryEngine.resolveInterests so interests).2 = false) := by
  refine ⟨?_, fun i => ⟨rfl, rfl⟩, ?_, ?_⟩
  · intro f interests
    induction interests with
    | nil => exact ⟨rfl, rfl, rfl, rfl⟩
    | cons i rest ih =>
      refine ⟨?_, ?_, ?_, ?_⟩
      · simp only [CulturalGoalArchitect.resolveUserInterests, QlooClient.searchEntities,
          Except.map, ih.1, List.map_cons]
        rfl
      · simp only [CulturalGoalArchitect.resolveUserInterests, QlooClient.searchEntities,
          Except.map, ih.2.1, List.flatMap_cons]
        rfl
      · simp only [CrossDomainDiscoveryEngine.resolveInterests, QlooClient.searchEntities,
          Except.map, ih.2.2.1, List.map_cons]
        rfl
      · simp only [CrossDomainDiscoveryEngine.resolveInterests, QlooClient.searchEntities,
          Except.map, ih.2.2.2, List.flatMap_cons]
        rfl
  · intro so interests
    induction interests with
    | nil => rintro ⟨i, hi, _⟩; cases hi
    | cons j rest ih =>
      rintro ⟨i, hi, hfail⟩
      unfold CulturalGoalArchitect.interestSearchRequest at hfail
      simp only [CulturalGoalArchitect.resolveUserInterests, QlooClient.searchEntities,
        Except.map]
      cases hj : so (QlooClient.buildSearchRequest j none { take := some 5 }) with
      | error e => simp [hj, exceptIsOk]
      | ok items =>
        rcases List.mem_cons.mp hi with rfl | hmem
        · rw [hj] at hfail
          simp [exceptIsOk] at hfail
        · simp only [hj]
          cases hr : (CulturalGoalArchitect.resolveUserInterests so rest).2 with
          | error e2 => simp [hr, exceptIsOk]
          | ok v =>
            have hih := ih ⟨i, hmem, hfail⟩
            rw [hr] at hih
            simp [exceptIsOk] at hih
  · intro so interests
    induction interests with
    | nil => rintro ⟨i, hi, _⟩; cases hi
    | cons j rest ih =>
      rintro ⟨i, hi, hfail⟩
      unfold CrossDomainDiscoveryEngine.interestSearchRequest at hfail
      simp only [CrossDomainDiscoveryEngine.resolveInterests, QlooClient.searchEntities,
        Except.map]
      cases hj : so (QlooClient.buildSearchRequest j none { take := some 3 }) with
      | error e => simp [hj, exceptIsOk]
      | ok items =>
        rcases List.mem_cons.mp hi with rfl | hmem
        · rw [hj] at hfail
          simp [exceptIsOk] at hfail
        · simp only [hj]
          cases hr : (CrossDomainDiscoveryEngine.resolveInterests so rest).2 with
          | error e2 => simp [hr, exceptIsOk]
          | ok v =>
            have hih := ih ⟨i, hmem, hfail⟩
            rw [hr] at hih
            simp [exceptIsOk] at hih

/-- Witness for the amended claim C4: with a failing search oracle, resolving
one interest aborts with a failure. -/
theorem resolve_interests_calls_spec_witness :
    exceptIsOk (CulturalGoalArchitect.resolveUserInterests searchOracleFail ["jazz"]).2
      = false :=
  resolve_interests_calls_spec.2.2.1 searchOracleFail ["jazz"]
    ⟨"jazz", by simp, rfl⟩

/-- Claim C7: the domain-bridge step returns exactly one record with
`domain1 = "user_interests"`, `domain2` the target domain, empty
`bridgeEntities` and exactly 3 insight strings parameterized by the interests
and the target domain, and issues no upstream comparison call. -/
theorem findDomainBridges_spec (userInterests : List String) (targetDomain : String)
    (h : userInterests ≠ []) :
    (CrossDomainDiscoveryEngine.findDomainBridges userInterests targetDomain).1 = [] ∧
    (CrossDomainDiscoveryEngine.findDomainBridges userInterests targetDomain).2 =
      [{ domain1 := "user_interests"
         domain2 := targetDomain
         bridgeEntities := []
         insights :=
           ["Bridge found between " ++ String.intercalate ", " userInterests ++
              " and " ++ targetDomain ++ " domain",
            "Cultural connections exist across these domains",
            "Consider exploring crossover opportunities"] }] ∧
    ((CrossDomainDiscoveryEngine.findDomainBridges userInterests targetDomain).2.map
      (fun b => b.insights.length)) = [3] :=
  ⟨rfl, rfl, rfl⟩

/-- Witness for claim C7 at one concrete interest and target domain. -/
theorem findDomainBridges_spec_witness :
    (CrossDomainDiscoveryEngine.findDomainBridges ["hiking"] "music").2 =
      [{ domain1 := "user_interests"
         domain2 := "music"
         bridgeEntities := []
         insights := ["Bridge found between hiking and music domain",
                      "Cultural connections exist across these domains",
                      "Consider exploring crossover opportunities"] }] := by
  have h := findDomainBridges_spec ["hiking"] "music" (by decide)
  rw [h.2.1]
  decide

/-- Claim C10: the goal-enhancement cross-domain connection step makes no
upstream call; it returns the empty list when either entity list is empty,
and otherwise exactly one record `from = "user_interests"`,
`to = "goal_domain"`, with the first at-most-5 goal entities and fixed
strength 0.8. -/
theorem findCrossDomainConnections_spec (userEntities goalEntities : List QlooEntity)
    (context : ProjectContext) :
    (CulturalGoalArchitect.findCrossDomainConnections userEntities goalEntities
      context).1 = [] ∧
    ((userEntities = [] ∨ goalEntities = []) →
      (CulturalGoalArchitect.findCrossDomainConnections userEntities goalEntities
        context).2 = []) ∧
    (userEntities ≠ [] → goalEntities ≠ [] →
      (CulturalGoalArchitect.findCrossDomainConnections userEntities goalEntities
        context).2 =
        [{ from_ := "user_interests"
           to_ := "goal_domain"
           connection := goalEntities.take 5
           strength := 0.8 }]) := by
  refine ⟨rfl, ?_, ?_⟩
  · intro hempty
    unfold CulturalGoalArchitect.findCrossDomainConnections
    rcases hempty with hu | hg
    · simp [hu]
    · simp [hg]
  · intro hu hg
    unfold CulturalGoalArchitect.findCrossDomainConnections
    rw [if_pos ⟨List.length_pos.mpr hu, List.length_pos.mpr hg⟩]

/-- Witness for claim C10 at concrete inputs: both the empty case and the
one-connection case. -/
theorem findCrossDomainConnections_spec_witness :
    (CulturalGoalArchitect.findCrossDomainConnections []
      [{ id := "g1", name := "G", type := "urn:entity:place" }]
      { projectType := "p", goalCategory := "fitness" }).2 = [] ∧
    (CulturalGoalArchitect.findCrossDomainConnections
      [{ id := "u1", name := "U", type := "urn:entity:place" }]
      [{ id := "g1", name := "G", type := "urn:entity:place" }]
      { projectType := "p", goalCategory := "fitness" }).2 =
      [{ from_ := "user_interests"
         to_ := "goal_domain"
         connection := [{ id := "g1", name := "G", type := "urn:entity:place" }]
         strength := 0.8 }] := by
  constructor
  · exact (findCrossDomainConnections_spec [] _ _).2.1 (Or.inl rfl)
  · have h := (findCrossDomainConnections_spec
      [{ id := "u1", name := "U", type := "urn:entity:place" }]
      [{ id := "g1", name := "G", type := "urn:entity:place" }]
      { projectType := "p", goalCategory := "fitness" }).2.2
      (by simp) (by simp)
    rw [h]
    rfl

/-- Claim C3, counterexample: with a search oracle that succeeds and an
insights oracle that fails every call, goal enhancement makes insight calls
that fail, yet returns a success whose `personalizedProjects` list is empty —
a partially-degraded result, not an aborted operation. -/
theorem enhanceGoal_partial_result_cex :
    insightOracleFail (CulturalGoalArchitect.projectInsightOptions [placeEntity]
      { projectType := "p", goalCategory := "fitness" }) = .error "500" ∧
    QCall.insights (CulturalGoalArchitect.projectInsightOptions [placeEntity]
      { projectType := "p", goalCategory := "fitness" }) ∈
      (CulturalGoalArchitect.enhanceGoalWithCulturalInsights searchOracleOne
        insightOracleFail "goal" { interests := ["jazz"] }
        { projectType := "p", goalCategory := "fitness" }).1 ∧
    (CulturalGoalArchitect.enhanceGoalWithCulturalInsights searchOracleOne
        insightOracleFail "goal" { interests := ["jazz"] }
        { projectType := "p", goalCategory := "fitness" }).2 =
      .ok { culturalRecommendations := [placeEntity, placeEntity, placeEntity]
            personalizedProjects := []
            crossDomainConnections :=
              [{ from_ := "user_interests"
                 to_ := "goal_domain"
                 connection := [placeEntity, placeEntity, placeEntity]
                 strength := 0.8 }] } := by
  refine ⟨rfl, ?_, rfl⟩
  decide

/-- Claim C3 as amended: failures raised while resolving interests or
fetching goal-relevant entities propagate and abort goal enhancement; a
failing per-project insight call inside project generation is caught and only
omits that project, so the operation can return a partially-degraded result. -/
theorem enhanceGoal_failure_propagation (so : SearchOracle) (io : InsightOracle)
    (goal : String) (userProfile : UserTasteProfile) (context : ProjectContext) :
    (∀ e : QErr,
      (CulturalGoalArchitect.resolveUserInterests so userProfile.interests).2 = .error e →
      (CulturalGoalArchitect.enhanceGoalWithCulturalInsights so io goal userProfile
        context).2 = .error e) ∧
    (∀ (userEntities : List QlooEntity) (e : QErr),
      (CulturalGoalArchitect.resolveUserInterests so userProfile.interests).2 =
        .ok userEntities →
      (CulturalGoalArchitect.getGoalRelevantEntities so goal context).2 = .error e →
      (CulturalGoalArchitect.enhanceGoalWithCulturalInsights so io goal userProfile
        context).2 = .error e) ∧
    (∀ (userEntities goalEntities : List QlooEntity),
      (CulturalGoalArchitect.resolveUserInterests so userProfile.interests).2 =
        .ok userEntities →
      (CulturalGoalArchitect.getGoalRelevantEntities so goal context).2 =
        .ok goalEntities →
      (CulturalGoalArchitect.enhanceGoalWithCulturalInsights so io goal userProfile
        context).2 =
        .ok { culturalRecommendations := goalEntities
              personalizedProjects :=
                (CulturalGoalArchitect.generateCulturallyAwareProjects io goal
                  userEntities goalEntities context).2
              crossDomainConnections :=
                (CulturalGoalArchitect.findCrossDomainConnections userEntities
                  goalEntities context).2 }) := by
  refine ⟨?_, ?_, ?_⟩
  · intro e h
    simp [CulturalGoalArchitect.enhanceGoalWithCulturalInsights, h]
  · intro userEntities e h1 h2
    simp [CulturalGoalArchitect.enhanceGoalWithCulturalInsights, h1, h2]
  · intro userEntities goalEntities h1 h2
    simp [CulturalGoalArchitect.enhanceGoalWithCulturalInsights, h1, h2]

/-- Witness for the amended claim C3: a failing search oracle aborts goal
enhancement with the same failure. -/
theorem enhanceGoal_failure_propagation_witness :
    (CulturalGoalArchitect.enhanceGoalWithCulturalInsights searchOracleFail
      insightOracleFail "goal" { interests := ["jazz"] }
      { projectType := "p", goalCategory := "fitness" }).2 = .error "boom" :=
  (enhanceGoal_failure_propagation searchOracleFail insightOracleFail "goal"
    { interests := ["jazz"] } { projectType := "p", goalCategory := "fitness" }).1
    "boom" rfl

/-- Claim C9, counterexample: a failure of the book-typed insight call inside
the content category is caught per content type, so the content category is
not degraded to the empty list — it still carries the podcast and movie
results. -/
theorem content_partial_degradation_cex :
    insightOracleNoBooks (SmartProjectComponentGenerator.contentInsightOptions
      ENTITY_TYPES.BOOK { interests := ["jazz"] }) = .error "403" ∧
    SmartProjectComponentGenerator.getContentRecommendations insightOracleNoBooks "p"
      { interests := ["jazz"] } = [podcastEntity, podcastEntity] ∧
    [podcastEntity, podcastEntity] ≠ ([] : List QlooEntity) ∧
    (SmartProjectComponentGenerator.generateComponentRecommendations insightOracleNoBooks
      "p" { interests := ["jazz"] }
      { projectType := "p", goalCategory := "fitness" }).content =
      [podcastEntity, podcastEntity] := by
  refine ⟨rfl, rfl, ?_, rfl⟩
  decide

/-- Claim C9 as amended: component generation always returns the structurally
complete four-category record; a failing venue, tool, or community call
degrades that category to the empty list; within the content category each
content-type call is caught individually, so content is empty when all three
content-type calls fail (a single failing type only omits that type's
contribution). -/
theorem generateComponentRecommendations_degradation (io : InsightOracle)
    (projectType : String) (userProfile : UserTasteProfile) (context : ProjectContext)
    (e : QErr) :
    (io (SmartProjectComponentGenerator.venueInsightOptions userProfile context) =
        .error e →
      (SmartProjectComponentGenerator.generateComponentRecommendations io projectType
        userProfile context).venues = []) ∧
    (io (SmartProjectComponentGenerator.toolInsightOptions userProfile) = .error e →
      (SmartProjectComponentGenerator.generateComponentRecommendations io projectType
        userProfile context).tools = []) ∧
    (io (SmartProjectComponentGenerator.communityInsightOptions userProfile) = .error e →
      (SmartProjectComponentGenerator.generateComponentRecommendations io projectType
        userProfile context).communities = []) ∧
    ((∀ t ∈ SmartProjectComponentGenerator.contentTypes,
        io (SmartProjectComponentGenerator.contentInsightOptions t userProfile) =
          .error e) →
      (SmartProjectComponentGenerator.generateComponentRecommendations io projectType
        userProfile context).content = []) ∧
    (SmartProjectComponentGenerator.generateComponentRecommendations io projectType
        userProfile context =
      { venues := SmartProjectComponentGenerator.getVenueRecommendations io projectType
          userProfile context
        content := SmartProjectComponentGenerator.getContentRecommendations io
          projectType userProfile
        tools := SmartProjectComponentGenerator.getToolRecommendations io projectType
          userProfile
        communities := SmartProjectComponentGenerator.getCommunityRecommendations io
          projectType userProfile context }) := by
  refine ⟨?_, ?_, ?_, ?_, rfl⟩
  · intro h
    simp [SmartProjectComponentGenerator.generateComponentRecommendations,
      SmartProjectComponentGenerator.getVenueRecommendations, QlooClient.getInsights, h,
      Except.map]
  · intro h
    simp [SmartProjectComponentGenerator.generateComponentRecommendations,
      SmartProjectComponentGenerator.getToolRecommendations, QlooClient.getInsights, h,
      Except.map]
  · intro h
    simp [SmartProjectComponentGenerator.generateComponentRecommendations,
      SmartProjectComponentGenerator.getCommunityRecommendations, QlooClient.getInsights,
      h, Except.map]
  · intro hall
    have hb := hall ENTITY_TYPES.BOOK
      (by simp [SmartProjectComponentGenerator.contentTypes])
    have hp := hall ENTITY_TYPES.PODCAST
      (by simp [SmartProjectComponentGenerator.contentTypes])
    have hm := hall ENTITY_TYPES.MOVIE
      (by simp [SmartProjectComponentGenerator.contentTypes])
    simp [SmartProjectComponentGenerator.generateComponentRecommendations,
      SmartProjectComponentGenerator.getContentRecommendations,
      SmartProjectComponentGenerator.contentTypes, QlooClient.getInsights,
      List.foldl_cons, List.foldl_nil, hb, hp, hm, Except.map]

/-- Witness for the amended claim C9: with every insight call failing, all
four categories degrade to the empty list while the record itself is still
returned. -/
theorem generateComponentRecommendations_degradation_witness :
    (SmartProjectComponentGenerator.generateComponentRecommendations insightOracleFail
      "p" { interests := ["jazz"] }
      { projectType := "p", goalCategory := "fitness" }).venues = [] ∧
    (SmartProjectComponentGenerator.generateComponentRecommendations insightOracleFail
      "p" { interests := ["jazz"] }
      { projectType := "p", goalCategory := "fitness" }).tools = [] ∧
    (SmartProjectComponentGenerator.generateComponentRecommendations insightOracleFail
      "p" { interests := ["jazz"] }
      { projectType := "p", goalCategory := "fitness" }).communities = [] ∧
    (SmartProjectComponentGenerator.generateComponentRecommendations insightOracleFail
      "p" { interests := ["jazz"] }
      { projectType := "p", goalCategory := "fitness" }).content = [] := by
  have h := generateComponentRecommendations_degradation insightOracleFail "p"
    { interests := ["jazz"] } { projectType := "p", goalCategory := "fitness" } "500"
  exact ⟨h.1 rfl, h.2.1 rfl, h.2.2.1 rfl, h.2.2.2.1 (fun t _ => rfl)⟩

/-- Claim C6: for every 2xx insights response body without a nested array at
`results.entities`, normalization yields an empty `results` sequence instead
of a shape error; when the nested array is present, each item becomes an
`Entity` taking `entity_id`-or-`id` as id, `subtype`-or-`type` as type, and
`query.affinity`-or-`affinity` as affinity. -/
theorem getInsights_shape_normalization :
    (∀ raw : RawInsightResponse, hasEntitiesArray raw.results = false →
      (normalizeInsightResponse raw).results = []) ∧
    (∀ items : List RawInsightItem,
      (normalizeInsightResponse { results := .entities items }).results =
        items.map (fun item =>
          { id := (jsOrStr item.entity_id item.id).getD ""
            name := item.name
            type := (jsOrStr item.subtype (jsOrStr item.type (some "unknown"))).getD "unknown"
            affinity := jsOrNum item.queryAffinity item.affinity })) := by
  constructor
  · intro raw h
    rcases raw with ⟨results⟩
    cases results with
    | absent => rfl
    | notEntityArray => rfl
    | entities items => simp [hasEntitiesArray] at h
  · intro items
    rfl

/-- Witness for claim C6 at concrete malformed bodies: a missing `results`
and a `results` without a nested entity array both normalize to `[]`. -/
theorem getInsights_shape_normalization_witness :
    (normalizeInsightResponse { results := .absent }).results = [] ∧
    (normalizeInsightResponse { results := .notEntityArray }).results = [] :=
  ⟨getInsights_shape_normalization.1 { results := .absent } rfl,
   getInsights_shape_normalization.1 { results := .notEntityArray } rfl⟩

/-- Claim C8: `averageAffinity` equals the sum of `affinity ?? 0` divided by
the count when the count is positive, and `0` for the empty list; entities
with affinities `[0.2, 0.8, missing]` average to `1/3`. -/
theorem calculateAverageAffinity_spec :
    (∀ es : List QlooEntity,
      CulturalGoalArchitect.calculateAverageAffinity es =
        if es.length = 0 then 0
        else (es.map (fun e => e.affinity.getD 0)).sum / (es.length : ℚ)) ∧
    CulturalGoalArchitect.calculateAverageAffinity [] = 0 ∧
    CulturalGoalArchitect.calculateAverageAffinity
        [{ id := "a", name := "a", type := "t", affinity := some 0.2 },
         { id := "b", name := "b", type := "t", affinity := some 0.8 },
         { id := "c", name := "c", type := "t", affinity := none }] = 1 / 3 := by
  have hmain : ∀ es : List QlooEntity,
      CulturalGoalArchitect.calculateAverageAffinity es =
        if es.length = 0 then 0
        else (es.map (fun e => e.affinity.getD 0)).sum / (es.length : ℚ) := by
    intro es
    unfold CulturalGoalArchitect.calculateAverageAffinity
    rw [foldl_add_affinity es 0, zero_add]
  refine ⟨hmain, by simp [hmain], ?_⟩
  rw [hmain]
  norm_num

end Qloo
